import Mathlib

/-!
Verification development for the tenant identity domain model consisting of
`iddd_common/src/assertion.rs` and the modules under
`iddd_identityaccess/src/domain/identity/` (`tenant.rs`, `tenant/tenant.rs`,
`tenant/tenant_id.rs`, `tenant/invitation.rs`).

Modelling conventions:
* Rust `&str` / `String` values are modelled as Lean `String`.  Rust's
  `str::len` counts UTF-8 bytes while `String.length` counts characters;
  the two agree on the ASCII data (identifiers, names, messages) that this
  domain manipulates, and `is_empty` (modelled as `length = 0`) agrees on
  all strings.
* `chrono::DateTime<Utc>` values are modelled as `Int`: an ordered timeline
  of instants is all the code uses (comparison only).
* The ambient clock (`Utc::now()`, read inside `Invitation::is_available`)
  and the random source consumed by `Uuid::new_v4()` are passed as explicit
  parameters, making the functions deterministic.
* Rust's fallible constructors return `Result<T, ArgumentError>`, modelled as
  `Except ArgumentError T`; the `?` operator's early return is modelled by
  matching on the intermediate result.  Methods taking `&mut self` are
  modelled as functions returning the updated value; an early `Err` return
  leaves the caller's value unchanged, which the step functions below make
  explicit.
-/

/-- Model of ArgumentError from iddd_common/src/assertion.rs: a typed failure
carrying a single formatted message. -/
structure ArgumentError where
  message : String
deriving DecidableEq

instance {ε α : Type} [DecidableEq ε] [DecidableEq α] :
    DecidableEq (Except ε α) :=
  fun a b =>
    match a, b with
    | .error e, .error f =>
      if h : e = f then .isTrue (by rw [h])
      else .isFalse (by intro hc; cases hc; exact h rfl)
    | .ok x, .ok y =>
      if h : x = y then .isTrue (by rw [h])
      else .isFalse (by intro hc; cases hc; exact h rfl)
    | .error _, .ok _ => .isFalse (by intro hc; cases hc)
    | .ok _, .error _ => .isFalse (by intro hc; cases hc)

/-- Model of the assert_argument_not_empty! macro from
iddd_common/src/assertion.rs: fails when the actual value is empty
(Rust is_empty, i.e. zero length). -/
def assert_argument_not_empty (actual : String) (subject : String) :
    Except ArgumentError Unit :=
  if actual.length = 0 then
    .error ⟨"The " ++ subject ++ " is required"⟩
  else
    .ok ()

/-- Model of the two-argument arm of the assert_argument_length! macro from
iddd_common/src/assertion.rs: fails when the value is longer than maximum. -/
def assert_argument_length_at_most (value : String) (maximum : Nat)
    (subject : String) : Except ArgumentError Unit :=
  if value.length > maximum then
    .error ⟨"The " ++ subject ++ " must be " ++ toString maximum ++
      " characters or less"⟩
  else
    .ok ()

/-- Model of the three-argument arm of the assert_argument_length! macro from
iddd_common/src/assertion.rs: fails when the length is outside
[minimum, maximum], with a dedicated message when minimum equals maximum. -/
def assert_argument_length_between (value : String) (minimum maximum : Nat)
    (subject : String) : Except ArgumentError Unit :=
  if value.length < minimum ∨ value.length > maximum then
    if minimum = maximum then
      .error ⟨"The " ++ subject ++ " must be " ++ toString minimum ++
        " characters long"⟩
    else
      .error ⟨"The " ++ subject ++ " must be long between " ++
        toString minimum ++ " and " ++ toString maximum ++ " characters"⟩
  else
    .ok ()

/-- Model of the assert_true! macro from iddd_common/src/assertion.rs: fails
with the supplied message when the condition is false. -/
def assert_true (actual : Bool) (msg : String) : Except ArgumentError Unit :=
  if !actual then .error ⟨msg⟩ else .ok ()

/-- Hex digit as recognized by the uuid crate's parser: 0-9, a-f, A-F. -/
def isHexDigitChar (c : Char) : Bool :=
  (48 ≤ c.toNat && c.toNat ≤ 57) ||
  (97 ≤ c.toNat && c.toNat ≤ 102) ||
  (65 ≤ c.toNat && c.toNat ≤ 70)

/-- Consume exactly n hex digits from the front of a character list. -/
def skipHex : Nat → List Char → Option (List Char)
  | 0, cs => some cs
  | _ + 1, [] => none
  | n + 1, c :: cs => if isHexDigitChar c then skipHex n cs else none

/-- Consume one dash from the front of a character list. -/
def skipDash : List Char → Option (List Char)
  | [] => none
  | c :: cs => if c = '-' then some cs else none

/-- Recognizer for the canonical hyphenated unique-identifier grammar:
groups of 8-4-4-4-12 hex digits separated by dashes. -/
def parseHyphenated (cs : List Char) : Option (List Char) :=
  ((((((((skipHex 8 cs).bind skipDash).bind (skipHex 4)).bind
    skipDash).bind (skipHex 4)).bind skipDash).bind (skipHex 4)).bind
    skipDash).bind (skipHex 12)

/-- True when the character list is exactly a canonical hyphenated
unique identifier. -/
def hyphenatedOk (cs : List Char) : Bool :=
  decide (parseHyphenated cs = some [])

/-- Model of Uuid::parse_str from the external uuid crate, as exercised by
this repository: TenantId::new calls it only on strings of exactly 36
characters (the length is checked first), where the crate's other accepted
textual formats (simple: 32 characters, braced: 38, URN: 45) are impossible,
so parse_str succeeds exactly on the canonical hyphenated grammar.
TenantId::random's output is also in the canonical hyphenated format. -/
def uuidParseStrOk (s : String) : Bool :=
  hyphenatedOk s.data

/-- Lowercase hexadecimal rendering of one nibble, as the uuid crate's
Display implementation produces. -/
def hexChar (n : Fin 16) : Char :=
  if n.val < 10 then Char.ofNat (48 + n.val) else Char.ofNat (87 + n.val)

/-- Canonical lowercase hyphenated rendering of 32 nibbles
(Uuid's to_string). -/
def uuidHyphenated (d : List (Fin 16)) : List Char :=
  (d.take 8).map hexChar ++
    ('-' :: (((d.drop 8).take 4).map hexChar ++
      ('-' :: (((d.drop 12).take 4).map hexChar ++
        ('-' :: (((d.drop 16).take 4).map hexChar ++
          ('-' :: (d.drop 20).map hexChar)))))))

/-- Model of Uuid::new_v4's forcing of the version and variant bits on the
128 random bits, viewed as 32 nibbles: the version nibble (index 12) becomes
4 and the variant nibble (index 16) gets high bits 10. -/
def v4Force (raw : Fin 32 → Fin 16) : Fin 32 → Fin 16 :=
  fun i =>
    if i.val = 12 then ⟨4, by omega⟩
    else if i.val = 16 then ⟨8 + (raw i).val % 4, by omega⟩
    else raw i

/-- Model of TenantId from tenant/tenant_id.rs: a validated unique
identifier string. -/
structure TenantId where
  value : String
deriving DecidableEq

/-- Model of TenantId::new: validates non-empty, exactly 36 characters, and
the canonical unique-identifier grammar, in that order. -/
def TenantId.new (value : String) : Except ArgumentError TenantId :=
  match assert_argument_not_empty value "value" with
  | .error e => .error e
  | .ok _ =>
  match assert_argument_length_between value 36 36 "value" with
  | .error e => .error e
  | .ok _ =>
  if !uuidParseStrOk value then
    .error ⟨"The value as an invalid format."⟩
  else
    .ok ⟨value⟩

/-- Model of TenantId::random, i.e. Uuid::new_v4().to_string(), with the
generator's 128 random bits supplied as 32 nibbles. -/
def TenantId.random (raw : Fin 32 → Fin 16) : TenantId :=
  ⟨String.mk (uuidHyphenated ((List.finRange 32).map (v4Force raw)))⟩

/-- Model of Invitation from tenant/invitation.rs.  The Rust field named
until is spelled until_ here because until is a Lean keyword. -/
structure Invitation where
  invitation_id : String
  description : String
  starting_on : Option Int
  until_ : Option Int
deriving DecidableEq

/-- Model of Invitation::new: validates invitation_id non-empty and of length
in [1, 36], then description non-empty and of length at most 100; on success
the validity is unbounded on both sides. -/
def Invitation.new (invitation_id : String) (description : String) :
    Except ArgumentError Invitation :=
  match assert_argument_not_empty invitation_id "invitation_id" with
  | .error e => .error e
  | .ok _ =>
  match assert_argument_length_between invitation_id 1 36 "invitation_id" with
  | .error e => .error e
  | .ok _ =>
  match assert_argument_not_empty description "description" with
  | .error e => .error e
  | .ok _ =>
  match assert_argument_length_at_most description 100 "description" with
  | .error e => .error e
  | .ok _ =>
  .ok { invitation_id := invitation_id, description := description,
        starting_on := none, until_ := none }

/-- Model of Invitation::is_available, with the ambient clock (Utc::now)
passed as the parameter now: true iff now is at or after starting_on (when
present) and at or before until (when present). -/
def Invitation.is_available (self : Invitation) (now : Int) : Bool :=
  (match self.starting_on with
   | none => true
   | some start => decide (now ≥ start)) &&
  (match self.until_ with
   | none => true
   | some e => decide (now ≤ e))

/-- Model of Invitation::is_identified_by: the identifier matches either the
stored invitation_id or the stored description. -/
def Invitation.is_identified_by (self : Invitation) (identifier : String) :
    Bool :=
  self.invitation_id == identifier || self.description == identifier

/-- Model of Invitation::redefine_as_open_ended: clears both validity
bounds. -/
def Invitation.redefine_as_open_ended (self : Invitation) : Invitation :=
  { self with starting_on := none, until_ := none }

/-- Model of Invitation::redefine_as: checks starting_on is at or before
until and replaces the validity bounds; an error leaves the invitation
unchanged (the Rust method returns early before any assignment). -/
def Invitation.redefine_as (self : Invitation) (starting_on : Int)
    (until_ : Int) : Except ArgumentError Invitation :=
  match assert_true (decide (starting_on ≤ until_))
      "starting_on must occurs before until" with
  | .error e => .error e
  | .ok _ =>
  .ok { self with starting_on := some starting_on, until_ := some until_ }

/-- Validity-mutating operations of Invitation, for reasoning about
arbitrary call sequences. -/
inductive InvitationOp where
  | redefineAs (starting_on : Int) (until_ : Int)
  | redefineAsOpenEnded
deriving DecidableEq

/-- One mutating call on an Invitation held by a caller: a failed
redefine_as leaves the invitation as it was (the &mut self method returns
early before assigning). -/
def applyInvitationOp (inv : Invitation) (op : InvitationOp) : Invitation :=
  match op with
  | .redefineAs s u =>
    match inv.redefine_as s u with
    | .ok inv2 => inv2
    | .error _ => inv
  | .redefineAsOpenEnded => inv.redefine_as_open_ended

/-- A sequence of mutating calls on an Invitation. -/
def applyInvitationOps (inv : Invitation) (ops : List InvitationOp) :
    Invitation :=
  ops.foldl applyInvitationOp inv

/-- Model of Tenant from tenant/tenant.rs (the variant owning an invitation
collection and the activation operations). -/
structure Tenant where
  tenant_id : TenantId
  name : String
  description : Option String
  active : Bool
  invitations : List Invitation
deriving DecidableEq

/-- Model of Tenant::new from tenant/tenant.rs: validates name non-empty and
of length at most 100, then (when present) description of length at most
100; an empty supplied description is filtered to absent. -/
def Tenant.new (tenant_id : TenantId) (name : String)
    (description : Option String) (active : Bool) :
    Except ArgumentError Tenant :=
  match assert_argument_not_empty name "name" with
  | .error e => .error e
  | .ok _ =>
  match assert_argument_length_at_most name 100 "name" with
  | .error e => .error e
  | .ok _ =>
  match (match description with
         | some d => assert_argument_length_at_most d 100 "description"
         | none => .ok ()) with
  | .error e => .error e
  | .ok _ =>
  .ok { tenant_id := tenant_id, name := name,
        description := Option.filter (fun s => !decide (s.length = 0))
          description,
        active := active, invitations := [] }

/-- Model of Tenant::activate: unconditionally sets the active flag. -/
def Tenant.activate (self : Tenant) : Tenant :=
  { self with active := true }

/-- Model of Tenant::deactivate: unconditionally clears the active flag. -/
def Tenant.deactivate (self : Tenant) : Tenant :=
  { self with active := false }

/-- The two activation operations of Tenant, for reasoning about arbitrary
call sequences. -/
inductive TenantOp where
  | activate
  | deactivate
deriving DecidableEq

/-- One activation call on a Tenant. -/
def applyTenantOp (t : Tenant) (op : TenantOp) : Tenant :=
  match op with
  | .activate => t.activate
  | .deactivate => t.deactivate

/-- The target value of the active flag set by an operation. -/
def TenantOp.target : TenantOp → Bool
  | .activate => true
  | .deactivate => false

/-- Model of the earlier Tenant variant and its constructor from
domain/identity/tenant.rs: no invitation collection, the description stored
as supplied (no empty-string filtering), and the description length check
labelled with the whole sentence
"The description must be 100 characters or less." as its subject. -/
structure TenantV1 where
  tenant_id : TenantId
  name : String
  description : Option String
  active : Bool
deriving DecidableEq

/-- Model of Tenant::new from domain/identity/tenant.rs. -/
def TenantV1.new (tenant_id : TenantId) (name : String)
    (description : Option String) (active : Bool) :
    Except ArgumentError TenantV1 :=
  match assert_argument_not_empty name "name" with
  | .error e => .error e
  | .ok _ =>
  match assert_argument_length_at_most name 100 "name" with
  | .error e => .error e
  | .ok _ =>
  match (match description with
         | some d => assert_argument_length_at_most d 100
             "The description must be 100 characters or less."
         | none => .ok ()) with
  | .error e => .error e
  | .ok _ =>
  .ok { tenant_id := tenant_id, name := name, description := description,
        active := active }

/-- Success test for a fallible construction result. -/
def isOkResult {α : Type} (r : Except ArgumentError α) : Bool :=
  match r with
  | .ok _ => true
  | .error _ => false

/-- A 101-character string, used as an over-long description. -/
def longDescr : String := String.mk (List.replicate 101 '0')

/-! ### Helper lemmas for the unique-identifier model -/

theorem optSomeBind {α β : Type} (a : α) (f : α → Option β) :
    (some a).bind f = f a := rfl

theorem hexChar_isHexDigit : ∀ n : Fin 16,
    isHexDigitChar (hexChar n) = true := by
  decide

theorem skipHex_map_append (l : List (Fin 16)) (rest : List Char) :
    skipHex l.length (l.map hexChar ++ rest) = some rest := by
  induction l with
  | nil => rfl
  | cons a l ih => simp [skipHex, hexChar_isHexDigit, ih]

theorem skipHex_group (n : Nat) (l : List (Fin 16)) (hl : l.length = n)
    (rest : List Char) : skipHex n (l.map hexChar ++ rest) = some rest :=
  hl ▸ skipHex_map_append l rest

theorem skipDash_cons (cs : List Char) : skipDash ('-' :: cs) = some cs := by
  simp [skipDash]

theorem parseHyphenated_uuid (d : List (Fin 16)) (h : d.length = 32) :
    parseHyphenated (uuidHyphenated d) = some [] := by
  have h8 : (d.take 8).length = 8 := by simp [h]
  have h4a : ((d.drop 8).take 4).length = 4 := by simp [h]
  have h4b : ((d.drop 12).take 4).length = 4 := by simp [h]
  have h4c : ((d.drop 16).take 4).length = 4 := by simp [h]
  have h12 : (d.drop 20).length = 12 := by simp [h]
  unfold parseHyphenated uuidHyphenated
  rw [skipHex_group 8 _ h8, optSomeBind, skipDash_cons, optSomeBind,
    skipHex_group 4 _ h4a, optSomeBind, skipDash_cons, optSomeBind,
    skipHex_group 4 _ h4b, optSomeBind, skipDash_cons, optSomeBind,
    skipHex_group 4 _ h4c, optSomeBind, skipDash_cons, optSomeBind,
    ← List.append_nil ((d.drop 20).map hexChar), skipHex_group 12 _ h12]

theorem uuidHyphenated_length (d : List (Fin 16)) (h : d.length = 32) :
    (uuidHyphenated d).length = 36 := by
  simp [uuidHyphenated, h]

/-! ### C1 -/

/-- C1 (amended): TenantId::new fails with an Argument failure for every
string whose length is not in [1,36]; among strings with length in [1,36]
only those of length exactly 36 reach the grammar check, so a non-canonical
string of length exactly 36 gets the grammar-specific message, while any
length in [1,35] gets the exact-length message; a canonical 36-character
string is accepted unchanged. -/
theorem C1_tenant_id_new (s : String) :
    (s.length = 0 → TenantId.new s = .error ⟨"The value is required"⟩) ∧
    (s.length ≠ 0 → s.length ≠ 36 →
      TenantId.new s = .error ⟨"The value must be 36 characters long"⟩) ∧
    (s.length = 36 → uuidParseStrOk s = false →
      TenantId.new s = .error ⟨"The value as an invalid format."⟩) ∧
    (s.length = 36 → uuidParseStrOk s = true →
      TenantId.new s = .ok ⟨s⟩) := by
  refine ⟨?_, ?_, ?_, ?_⟩
  · intro h
    simp [TenantId.new, assert_argument_not_empty, h]
  · intro h0 h36
    have hc : s.length < 36 ∨ s.length > 36 := by omega
    simp [TenantId.new, assert_argument_not_empty,
      assert_argument_length_between, h0, hc]
    rfl
  · intro h36 hp
    simp [TenantId.new, assert_argument_not_empty,
      assert_argument_length_between, h36, hp]
  · intro h36 hp
    simp [TenantId.new, assert_argument_not_empty,
      assert_argument_length_between, h36, hp]

/-- C1 witness: the canonical identifier from the repository's own test is
accepted and stored unchanged. -/
theorem C1_tenant_id_new_witness :
    TenantId.new "12345678-1234-1234-1234-123456789012" =
      .ok ⟨"12345678-1234-1234-1234-123456789012"⟩ :=
  (C1_tenant_id_new "12345678-1234-1234-1234-123456789012").2.2.2
    (by decide) (by decide)

/-- C1 counterexample: the one-character string has length in the claimed
range [1,36] and does not match the canonical grammar, yet TenantId::new
reports the exact-length message, not the grammar-specific one. -/
theorem C1_counterexample :
    (1 ≤ ("a" : String).length ∧ ("a" : String).length ≤ 36) ∧
    uuidParseStrOk "a" = false ∧
    TenantId.new "a" = .error ⟨"The value must be 36 characters long"⟩ ∧
    TenantId.new "a" ≠ .error ⟨"The value as an invalid format."⟩ := by
  decide

/-! ### C3 -/

/-- C3: every identifier produced by TenantId::random (whatever the random
draw) round-trips: TenantId::new applied to its value succeeds and returns
an identifier with the same value. -/
theorem C3_random_roundtrip (raw : Fin 32 → Fin 16) :
    TenantId.new (TenantId.random raw).value = .ok (TenantId.random raw) := by
  have hd : ((List.finRange 32).map (v4Force raw)).length = 32 := by simp
  have hlen : ((TenantId.random raw).value).length = 36 :=
    uuidHyphenated_length _ hd
  have hparse : uuidParseStrOk (TenantId.random raw).value = true := by
    simp [uuidParseStrOk, hyphenatedOk, TenantId.random,
      parseHyphenated_uuid _ hd]
  simp [TenantId.new, assert_argument_not_empty,
    assert_argument_length_between, hlen, hparse]

/-! ### C2 -/

/-- C2 (amended): redefine_as with starting_on after until fails with the
Argument message "starting_on must occurs before until" and leaves the
invitation unchanged; with starting_on at or before until (equal instants
included) it succeeds and replaces the validity with exactly the supplied
bounds. -/
theorem C2_redefine_as (inv : Invitation) (s u : Int) :
    (u < s → inv.redefine_as s u =
        .error ⟨"starting_on must occurs before until"⟩ ∧
      applyInvitationOp inv (.redefineAs s u) = inv) ∧
    (s ≤ u → inv.redefine_as s u =
        .ok { inv with starting_on := some s, until_ := some u }) := by
  constructor
  · intro h
    have hd : decide (s ≤ u) = false := decide_eq_false (by omega)
    constructor
    · simp [Invitation.redefine_as, assert_true, hd]
    · simp [applyInvitationOp, Invitation.redefine_as, assert_true, hd]
  · intro h
    simp [Invitation.redefine_as, assert_true, h]

/-- C2 witness: a concrete failing call and a concrete succeeding call. -/
theorem C2_redefine_as_witness :
    Invitation.redefine_as ⟨"i2", "d2", none, none⟩ 1 0 =
      .error ⟨"starting_on must occurs before until"⟩ ∧
    Invitation.redefine_as ⟨"i2", "d2", some 5, some 6⟩ 2 2 =
      .ok ⟨"i2", "d2", some 2, some 2⟩ :=
  ⟨((C2_redefine_as ⟨"i2", "d2", none, none⟩ 1 0).1 (by omega)).1,
   (C2_redefine_as ⟨"i2", "d2", some 5, some 6⟩ 2 2).2 (by omega)⟩

/-- C2 counterexample: at starting_on 1 and until 0 the code's failure
message is "starting_on must occurs before until", not the claimed
"starting_on must occur before until". -/
theorem C2_counterexample :
    Invitation.redefine_as ⟨"anInvitationId", "aDescription", none, none⟩ 1 0 =
      .error ⟨"starting_on must occurs before until"⟩ ∧
    Invitation.redefine_as ⟨"anInvitationId", "aDescription", none, none⟩ 1 0 ≠
      .error ⟨"starting_on must occur before until"⟩ := by
  decide

/-! ### C4 -/

/-- C4: with the clock passed as the parameter now, is_available is true iff
now is at or after starting_on when that bound is present and at or before
until when that bound is present (an absent bound imposes no constraint);
in particular it is always true when both bounds are absent, false for an
interval strictly in the past or strictly in the future, and true for an
interval spanning now. -/
theorem C4_is_available (inv : Invitation) (now : Int) :
    (inv.is_available now = true ↔
      (∀ s, inv.starting_on = some s → s ≤ now) ∧
      (∀ u, inv.until_ = some u → now ≤ u)) ∧
    (inv.starting_on = none → inv.until_ = none →
      inv.is_available now = true) ∧
    (∀ s u, inv.starting_on = some s → inv.until_ = some u → u < now →
      inv.is_available now = false) ∧
    (∀ s u, inv.starting_on = some s → inv.until_ = some u → now < s →
      inv.is_available now = false) ∧
    (∀ s u, inv.starting_on = some s → inv.until_ = some u → s ≤ now →
      now ≤ u → inv.is_available now = true) := by
  obtain ⟨iid, d, so, un⟩ := inv
  refine ⟨?_, ?_, ?_, ?_, ?_⟩
  · cases so <;> cases un <;> simp [Invitation.is_available]
  · intro h1 h2
    subst h1; subst h2
    simp [Invitation.is_available]
  · intro s u h1 h2 h3
    subst h1; subst h2
    have hu : decide (now ≤ u) = false := decide_eq_false (by omega)
    simp [Invitation.is_available, hu]
  · intro s u h1 h2 h3
    subst h1; subst h2
    have hs : decide (now ≥ s) = false := decide_eq_false (by omega)
    simp [Invitation.is_available, hs]
  · intro s u h1 h2 h3 h4
    subst h1; subst h2
    have hs : decide (now ≥ s) = true := decide_eq_true (by omega)
    have hu : decide (now ≤ u) = true := decide_eq_true (by omega)
    simp [Invitation.is_available, hs, hu]

/-- C4 witness: an interval spanning the current instant is available. -/
theorem C4_is_available_witness :
    Invitation.is_available ⟨"i4", "d4", some 0, some 2⟩ 1 = true :=
  (C4_is_available ⟨"i4", "d4", some 0, some 2⟩ 1).2.2.2.2 0 2 rfl rfl
    (by omega) (by omega)

/-! ### C6 -/

/-- C6: Invitation::new checks invitation_id non-empty, then its length in
[1,36], then description non-empty, then description length at most 100,
returning the Argument failure of the first violated check; when all checks
pass it returns an invitation with both validity bounds absent, which is
available at every instant. -/
theorem C6_invitation_new (iid d : String) :
    (iid.length = 0 →
      Invitation.new iid d = .error ⟨"The invitation_id is required"⟩) ∧
    (iid.length ≠ 0 → iid.length > 36 →
      Invitation.new iid d =
        .error ⟨"The invitation_id must be long between 1 and 36 characters"⟩) ∧
    (iid.length ≠ 0 → iid.length ≤ 36 → d.length = 0 →
      Invitation.new iid d = .error ⟨"The description is required"⟩) ∧
    (iid.length ≠ 0 → iid.length ≤ 36 → d.length ≠ 0 → d.length > 100 →
      Invitation.new iid d =
        .error ⟨"The description must be 100 characters or less"⟩) ∧
    (iid.length ≠ 0 → iid.length ≤ 36 → d.length ≠ 0 → d.length ≤ 100 →
      Invitation.new iid d = .ok ⟨iid, d, none, none⟩ ∧
      ∀ now : Int, Invitation.is_available ⟨iid, d, none, none⟩ now = true) := by
  refine ⟨?_, ?_, ?_, ?_, ?_⟩
  · intro h1
    simp [Invitation.new, assert_argument_not_empty, h1]
  · intro h1 h2
    simp [Invitation.new, assert_argument_not_empty,
      assert_argument_length_between, h1, h2] <;> rfl
  · intro h1 h2 h3
    have hn : ¬(36 < iid.length) := by omega
    simp [Invitation.new, assert_argument_not_empty,
      assert_argument_length_between, h1, hn, h3]
  · intro h1 h2 h3 h4
    have hn : ¬(36 < iid.length) := by omega
    simp [Invitation.new, assert_argument_not_empty,
      assert_argument_length_between, assert_argument_length_at_most,
      h1, hn, h3, h4] <;> rfl
  · intro h1 h2 h3 h4
    have hn : ¬(36 < iid.length) := by omega
    have hc2 : ¬(d.length > 100) := by omega
    refine ⟨?_, ?_⟩
    · simp [Invitation.new, assert_argument_not_empty,
        assert_argument_length_between, assert_argument_length_at_most,
        h1, hn, h3, hc2]
    · intro now
      simp [Invitation.is_available]

/-- C6 witness: the construction from the repository's own test succeeds
with unbounded validity. -/
theorem C6_invitation_new_witness :
    Invitation.new "anInvitationId" "aDescription" =
      .ok ⟨"anInvitationId", "aDescription", none, none⟩ :=
  ((C6_invitation_new "anInvitationId" "aDescription").2.2.2.2
    (by decide) (by decide) (by decide) (by decide)).1

/-! ### C7 -/

/-- Successful construction pins down the invitation and records that all
four checks passed. -/
theorem Invitation.new_ok_shape (iid d : String) (inv : Invitation)
    (h : Invitation.new iid d = .ok inv) :
    inv = ⟨iid, d, none, none⟩ ∧ iid.length ≠ 0 ∧ iid.length ≤ 36 ∧
      d.length ≠ 0 ∧ d.length ≤ 100 := by
  by_cases h1 : iid.length = 0
  · simp [Invitation.new, assert_argument_not_empty, h1] at h
  · by_cases h2 : 36 < iid.length
    · simp [Invitation.new, assert_argument_not_empty,
        assert_argument_length_between, h1, h2] at h
    · by_cases h3 : d.length = 0
      · simp [Invitation.new, assert_argument_not_empty,
          assert_argument_length_between, h1, h2, h3] at h
      · by_cases h4 : 100 < d.length
        · simp [Invitation.new, assert_argument_not_empty,
            assert_argument_length_between, assert_argument_length_at_most,
            h1, h2, h3, h4] at h
        · simp [Invitation.new, assert_argument_not_empty,
            assert_argument_length_between, assert_argument_length_at_most,
            h1, h2, h3, h4] at h
          refine ⟨?_, h1, by omega, h3, by omega⟩
          exact h.symm

/-- One mutating call never changes the identity fields. -/
theorem applyInvitationOp_fields (inv : Invitation) (op : InvitationOp) :
    (applyInvitationOp inv op).invitation_id = inv.invitation_id ∧
    (applyInvitationOp inv op).description = inv.description := by
  cases op with
  | redefineAsOpenEnded => exact ⟨rfl, rfl⟩
  | redefineAs s u =>
    by_cases h : s ≤ u
    · simp [applyInvitationOp, Invitation.redefine_as, assert_true, h]
    · have hd : decide (s ≤ u) = false := decide_eq_false h
      simp [applyInvitationOp, Invitation.redefine_as, assert_true, hd]

/-- No sequence of mutating calls changes the identity fields. -/
theorem applyInvitationOps_fields (inv : Invitation)
    (ops : List InvitationOp) :
    (applyInvitationOps inv ops).invitation_id = inv.invitation_id ∧
    (applyInvitationOps inv ops).description = inv.description := by
  induction ops generalizing inv with
  | nil => exact ⟨rfl, rfl⟩
  | cons op ops ih =>
    have h1 := applyInvitationOp_fields inv op
    have h2 := ih (applyInvitationOp inv op)
    exact ⟨h2.1.trans h1.1, h2.2.trans h1.2⟩

/-- C7: for an invitation produced by Invitation::new and any sequence of
redefine_as / redefine_as_open_ended calls, invitation_id and description
never change, staying non-empty and within their length bounds
(invitation_id at most 36 characters, description at most 100). -/
theorem C7_identity_fields_invariant (iid d : String) (inv : Invitation)
    (ops : List InvitationOp) (h : Invitation.new iid d = .ok inv) :
    (applyInvitationOps inv ops).invitation_id = iid ∧
    (applyInvitationOps inv ops).description = d ∧
    (applyInvitationOps inv ops).invitation_id.length ≠ 0 ∧
    (applyInvitationOps inv ops).invitation_id.length ≤ 36 ∧
    (applyInvitationOps inv ops).description.length ≠ 0 ∧
    (applyInvitationOps inv ops).description.length ≤ 100 := by
  obtain ⟨hshape, hi0, hi36, hd0, hd100⟩ := Invitation.new_ok_shape iid d inv h
  obtain ⟨hid, hdesc⟩ := applyInvitationOps_fields inv ops
  subst hshape
  exact ⟨hid, hdesc, by rw [hid]; exact hi0, by rw [hid]; exact hi36,
    by rw [hdesc]; exact hd0, by rw [hdesc]; exact hd100⟩

/-- C7 witness: a concrete invitation with a concrete call sequence keeps
its identifier. -/
theorem C7_identity_fields_invariant_witness :
    (applyInvitationOps ⟨"i7", "d7", none, none⟩
        [.redefineAs 0 1, .redefineAsOpenEnded]).invitation_id = "i7" :=
  (C7_identity_fields_invariant "i7" "d7" ⟨"i7", "d7", none, none⟩
    [.redefineAs 0 1, .redefineAsOpenEnded] (by decide)).1

/-! ### C8 -/

/-- C8: is_identified_by returns true exactly when the argument equals the
stored invitation_id or the stored description. -/
theorem C8_is_identified_by (inv : Invitation) (x : String) :
    inv.is_identified_by x = true ↔
      (inv.invitation_id = x ∨ inv.description = x) := by
  simp [Invitation.is_identified_by]

/-- C8 witness: matching the stored description identifies the
invitation. -/
theorem C8_is_identified_by_witness :
    Invitation.is_identified_by ⟨"i8", "d8", none, none⟩ "d8" = true :=
  (C8_is_identified_by ⟨"i8", "d8", none, none⟩ "d8").mpr (Or.inr rfl)

/-! ### C5 -/

/-- C5: Tenant::new (tenant/tenant.rs) validates name non-empty, then name
length at most 100, then (when a description is supplied) description
length at most 100, surfacing the first violated check's Argument message;
an empty supplied description is accepted and stored as absent; on success
the tenant carries the supplied tenant_id, name and active flag and an
empty invitation collection. -/
theorem C5_tenant_new (tid : TenantId) (name : String)
    (descr : Option String) (active : Bool) :
    (name.length = 0 →
      Tenant.new tid name descr active = .error ⟨"The name is required"⟩) ∧
    (name.length ≠ 0 → name.length > 100 →
      Tenant.new tid name descr active =
        .error ⟨"The name must be 100 characters or less"⟩) ∧
    (∀ d, descr = some d → name.length ≠ 0 → name.length ≤ 100 →
      d.length > 100 →
      Tenant.new tid name descr active =
        .error ⟨"The description must be 100 characters or less"⟩) ∧
    (name.length ≠ 0 → name.length ≤ 100 →
      (∀ d, descr = some d → d.length ≤ 100) →
      Tenant.new tid name descr active =
        .ok ⟨tid, name, Option.filter (fun s => !decide (s.length = 0)) descr,
          active, []⟩) ∧
    (name.length ≠ 0 → name.length ≤ 100 →
      Tenant.new tid name (some "") active =
        .ok ⟨tid, name, none, active, []⟩) := by
  refine ⟨?_, ?_, ?_, ?_, ?_⟩
  · intro h1
    simp [Tenant.new, assert_argument_not_empty, h1]
  · intro h1 h2
    simp [Tenant.new, assert_argument_not_empty,
      assert_argument_length_at_most, h1, h2] <;> rfl
  · intro d hd h1 h2 h3
    subst hd
    have hn : ¬(100 < name.length) := by omega
    simp [Tenant.new, assert_argument_not_empty,
      assert_argument_length_at_most, h1, hn, h3] <;> rfl
  · intro h1 h2 hall
    have hn : ¬(100 < name.length) := by omega
    cases descr with
    | none =>
      simp [Tenant.new, assert_argument_not_empty,
        assert_argument_length_at_most, h1, hn, Option.filter]
    | some d =>
      have hd100 : d.length ≤ 100 := hall d rfl
      have hdn : ¬(100 < d.length) := by omega
      simp [Tenant.new, assert_argument_not_empty,
        assert_argument_length_at_most, h1, hn, hdn, Option.filter]
  · intro h1 h2
    have hn : ¬(100 < name.length) := by omega
    simp [Tenant.new, assert_argument_not_empty,
      assert_argument_length_at_most, h1, hn, Option.filter]

/-- C5 witness: an empty supplied description is stored as absent on a
successful construction. -/
theorem C5_tenant_new_witness :
    Tenant.new ⟨"t5"⟩ "name" (some "") true =
      .ok ⟨⟨"t5"⟩, "name", none, true, []⟩ :=
  (C5_tenant_new ⟨"t5"⟩ "name" (some "") true).2.2.2.2 (by decide) (by decide)

/-! ### C9 -/

/-- One activation call changes nothing but the active flag. -/
theorem applyTenantOp_frame (t : Tenant) (op : TenantOp) :
    (applyTenantOp t op).tenant_id = t.tenant_id ∧
    (applyTenantOp t op).name = t.name ∧
    (applyTenantOp t op).description = t.description ∧
    (applyTenantOp t op).invitations = t.invitations := by
  cases op <;> exact ⟨rfl, rfl, rfl, rfl⟩

/-- No sequence of activation calls changes the other fields. -/
theorem applyTenantOps_frame (t : Tenant) (ops : List TenantOp) :
    (ops.foldl applyTenantOp t).tenant_id = t.tenant_id ∧
    (ops.foldl applyTenantOp t).name = t.name ∧
    (ops.foldl applyTenantOp t).description = t.description ∧
    (ops.foldl applyTenantOp t).invitations = t.invitations := by
  induction ops generalizing t with
  | nil => exact ⟨rfl, rfl, rfl, rfl⟩
  | cons op ops ih =>
    obtain ⟨a, b, c, d⟩ := applyTenantOp_frame t op
    obtain ⟨a2, b2, c2, d2⟩ := ih (applyTenantOp t op)
    exact ⟨a2.trans a, b2.trans b, c2.trans c, d2.trans d⟩

/-- After a nonempty sequence of activation calls the flag equals the last
call's target. -/
theorem applyTenantOps_active_last (t : Tenant) (op : TenantOp)
    (ops : List TenantOp) :
    ((op :: ops).foldl applyTenantOp t).active =
      ((op :: ops).getLast (by simp)).target := by
  induction ops generalizing t op with
  | nil => cases op <;> rfl
  | cons b l ih => exact ih (applyTenantOp t op) b

/-- C9: activate and deactivate always succeed, set the active flag to true
resp. false and change no other field; after any nonempty sequence of such
calls the flag equals the last call's target, whatever the starting
state. -/
theorem C9_activate_deactivate (t : Tenant) (ops : List TenantOp) :
    t.activate = { t with active := true } ∧
    t.deactivate = { t with active := false } ∧
    (ops.foldl applyTenantOp t).tenant_id = t.tenant_id ∧
    (ops.foldl applyTenantOp t).name = t.name ∧
    (ops.foldl applyTenantOp t).description = t.description ∧
    (ops.foldl applyTenantOp t).invitations = t.invitations ∧
    (∀ h : ops ≠ [], (ops.foldl applyTenantOp t).active =
      (ops.getLast h).target) := by
  obtain ⟨a, b, c, d⟩ := applyTenantOps_frame t ops
  refine ⟨rfl, rfl, a, b, c, d, ?_⟩
  intro h
  cases ops with
  | nil => exact absurd rfl h
  | cons op ops2 => exact applyTenantOps_active_last t op ops2

/-- C9 witness: after deactivate then activate the flag is true. -/
theorem C9_activate_deactivate_witness :
    (([TenantOp.deactivate, TenantOp.activate]).foldl applyTenantOp
      ⟨⟨"t9"⟩, "n9", none, false, []⟩).active = true :=
  (C9_activate_deactivate ⟨⟨"t9"⟩, "n9", none, false, []⟩
    [TenantOp.deactivate, TenantOp.activate]).2.2.2.2.2.2 (by decide)

/-! ### C10 -/

/-- C10 counterexample: with name "n" and the empty-string description both
variants succeed, but the tenant/tenant.rs variant stores the description
as absent while the tenant.rs variant stores the empty string, so the two
variants do not store the same description on success. -/
theorem C10_counterexample :
    Tenant.new ⟨"t"⟩ "n" (some "") true = .ok ⟨⟨"t"⟩, "n", none, true, []⟩ ∧
    TenantV1.new ⟨"t"⟩ "n" (some "") true =
      .ok ⟨⟨"t"⟩, "n", some "", true⟩ ∧
    (none : Option String) ≠ some "" := by
  decide

/-- C10 (amended): the two Tenant constructor variants agree on success
versus failure for every input and produce identical messages on the name
checks; they diverge exactly as follows: on an over-long description the
tenant.rs variant embeds the whole sentence "The description must be 100
characters or less." as the message's subject label, and on success that
variant stores the description as supplied (an empty string included)
while the tenant/tenant.rs variant stores an empty-string description as
absent. -/
theorem C10_variants (tid : TenantId) (name : String)
    (descr : Option String) (active : Bool) :
    (isOkResult (TenantV1.new tid name descr active) =
      isOkResult (Tenant.new tid name descr active)) ∧
    (name.length = 0 →
      TenantV1.new tid name descr active = .error ⟨"The name is required"⟩ ∧
      Tenant.new tid name descr active = .error ⟨"The name is required"⟩) ∧
    (name.length ≠ 0 → name.length > 100 →
      TenantV1.new tid name descr active =
        .error ⟨"The name must be 100 characters or less"⟩ ∧
      Tenant.new tid name descr active =
        .error ⟨"The name must be 100 characters or less"⟩) ∧
    (∀ d, descr = some d → name.length ≠ 0 → name.length ≤ 100 →
      d.length > 100 →
      TenantV1.new tid name descr active =
        .error ⟨"The The description must be 100 characters or less. must be 100 characters or less"⟩ ∧
      Tenant.new tid name descr active =
        .error ⟨"The description must be 100 characters or less"⟩) ∧
    (name.length ≠ 0 → name.length ≤ 100 →
      (∀ d, descr = some d → d.length ≤ 100) →
      TenantV1.new tid name descr active = .ok ⟨tid, name, descr, active⟩ ∧
      Tenant.new tid name descr active =
        .ok ⟨tid, name, Option.filter (fun s => !decide (s.length = 0)) descr,
          active, []⟩) := by
  refine ⟨?_, ?_, ?_, ?_, ?_⟩
  · by_cases h1 : name.length = 0
    · simp [TenantV1.new, Tenant.new, assert_argument_not_empty, h1,
        isOkResult]
    · by_cases h2 : 100 < name.length
      · simp [TenantV1.new, Tenant.new, assert_argument_not_empty,
          assert_argument_length_at_most, h1, h2, isOkResult]
      · cases descr with
        | none =>
          simp [TenantV1.new, Tenant.new, assert_argument_not_empty,
            assert_argument_length_at_most, h1, h2, isOkResult]
        | some d =>
          by_cases h3 : 100 < d.length <;>
            simp [TenantV1.new, Tenant.new, assert_argument_not_empty,
              assert_argument_length_at_most, h1, h2, h3, isOkResult]
  · intro h1
    constructor <;> simp [TenantV1.new, Tenant.new,
      assert_argument_not_empty, h1]
  · intro h1 h2
    constructor <;>
      simp [TenantV1.new, Tenant.new, assert_argument_not_empty,
        assert_argument_length_at_most, h1, h2] <;> rfl
  · intro d hd h1 h2 h3
    subst hd
    have hn : ¬(100 < name.length) := by omega
    constructor <;>
      simp [TenantV1.new, Tenant.new, assert_argument_not_empty,
        assert_argument_length_at_most, h1, hn, h3] <;> rfl
  · intro h1 h2 hall
    have hn : ¬(100 < name.length) := by omega
    cases descr with
    | none =>
      constructor <;>
        simp [TenantV1.new, Tenant.new, assert_argument_not_empty,
          assert_argument_length_at_most, h1, hn, Option.filter]
    | some d =>
      have hd100 : d.length ≤ 100 := hall d rfl
      have hdn : ¬(100 < d.length) := by omega
      constructor <;>
        simp [TenantV1.new, Tenant.new, assert_argument_not_empty,
          assert_argument_length_at_most, h1, hn, hdn, Option.filter]

/-- C10 witness: with no description supplied the two variants agree. -/
theorem C10_variants_witness :
    TenantV1.new ⟨"t10"⟩ "n10" none true =
      .ok ⟨⟨"t10"⟩, "n10", none, true⟩ ∧
    Tenant.new ⟨"t10"⟩ "n10" none true =
      .ok ⟨⟨"t10"⟩, "n10", none, true, []⟩ :=
  (C10_variants ⟨"t10"⟩ "n10" none true).2.2.2.2 (by decide) (by decide)
    (fun d hd => nomatch hd)
